import Mathlib

/-!
A verification development for `src/Dryad.py`, a script that downloads
Dryad datasets: it caches a bearer token, resolves the latest version of a
dataset identified by a DOI, downloads each file of that version and zips
the resulting directory.

The Python source is shallowly embedded: pure fragments become Lean
functions, stateful fragments pass an explicit state, uncaught Python
exceptions become `Except` errors, and caught exceptions are resolved
inline to the value the handler returns.  Machine-level aspects that the
script does not depend on (real wall-clock time, float formatting of the
progress percentage, the textual details of ISO-8601 timestamps) are
modelled at the granularity the script observes:

* instants are integers (minutes); `datetime.now()` becomes an explicit
  `now : Int` parameter;
* a JSON string value is modelled as either `jtime t` (a string in valid
  ISO-8601 format denoting the instant `t`; `fromisoformat` succeeds on
  exactly these and is injective on them) or `jstr s` (a string that is
  not a valid ISO-8601 timestamp; `fromisoformat` raises `ValueError`);
* progress percentages are exact rationals.
-/

/-- Python exceptions relevant to `Dryad.py`, split into the ones its
`except` clauses catch and the ones that escape. -/
inductive PyExc where
  /-- `IndexError`: list subscript out of range (not caught anywhere). -/
  | indexError
  /-- `TypeError`: e.g. subscripting a non-dict with a string key
  (not caught anywhere). -/
  | typeError
  /-- `OSError` from the filesystem or `zipfile` (caught only inside
  `create_new_dir`). -/
  | osError
  /-- `KeyError`: missing dict key. -/
  | keyError
  /-- `ValueError`: e.g. `datetime.fromisoformat` on a malformed string. -/
  | valueError
deriving DecidableEq

/-- Parsed JSON values as `json.load` produces them.  String values are
split by whether `datetime.fromisoformat` would accept them: `jtime t`
stands for a valid ISO-8601 string denoting instant `t`, `jstr s` for any
other string. -/
inductive JVal where
  | jnull
  | jbool (b : Bool)
  | jnum (n : Int)
  | jtime (t : Int)
  | jstr (s : String)
  | jarr (elems : List JVal)
  | jobj (fields : List (String × JVal))

/-- Lookup in a Python dict built by `json.load`: for duplicate keys in the
source text the last occurrence wins. -/
def dictGet (fields : List (String × JVal)) (k : String) : Option JVal :=
  (fields.reverse.find? (fun p => p.1 = k)).map (fun p => p.2)

/-- Content of the on-disk `.token_cache.json` file: either text that is
not valid JSON (so `json.load` raises `JSONDecodeError`), or a parsed JSON
value. -/
inductive CacheContent where
  | malformed
  | json (v : JVal)

/-- Embeds `datetime.fromisoformat(x)` applied to a JSON value `x`:
a valid ISO string yields its instant, any other string raises
`ValueError`, a non-string raises `TypeError`. -/
def fromisoformat : JVal → Except PyExc Int
  | .jtime t => .ok t
  | .jstr _ => .error .valueError
  | _ => .error .typeError

/-- Embeds `cache_token` (Dryad.py lines 84-99): computes
`expiry = now + timedelta(minutes = expired_hours*60 - 1)` and writes
`{"token": token, "expiry": expiry.isoformat()}` to the cache file,
overwriting it.  The returned value is the new cache-file content. -/
def cache_token (token : String) (expired_hours : Int := 10) (now : Int := 0) :
    CacheContent :=
  .json (.jobj [("token", .jstr token),
                ("expiry", .jtime (now + (expired_hours * 60 - 1)))])

/-- Embeds `load_cached_token` (Dryad.py lines 101-128).  The input is the
cache file (`none` when the file does not exist) and the current time; the
output is the returned token value (Python returns `cache_data["token"]`,
whatever JSON value that is) together with the cache file afterwards
(`none` when `os.remove` deleted it).  `JSONDecodeError`, `KeyError` and
`ValueError` are caught by the source's `except` clause and turn into a
plain `None` return; a `TypeError` (non-dict JSON content, or a non-string
`"expiry"` value) escapes. -/
def load_cached_token (file : Option CacheContent) (now : Int) :
    Except PyExc (Option JVal × Option CacheContent) :=
  match file with
  | none => .ok (none, none)
  | some .malformed => .ok (none, some .malformed)
  | some (.json v) =>
    match v with
    | .jobj fields =>
      match dictGet fields "expiry" with
      | none => .ok (none, some (.json v))
      | some ev =>
        match fromisoformat ev with
        | .error .valueError => .ok (none, some (.json v))
        | .error e => .error e
        | .ok expiry_time =>
          if now < expiry_time then
            match dictGet fields "token" with
            | none => .ok (none, some (.json v))
            | some tv => .ok (some tv, some (.json v))
          else
            .ok (none, none)
    | _ => .error .typeError

/-!  Byte strings and the identifier encoder (`encode_dryad_doi_url`). -/

/-- Byte strings.  `urllib.parse.quote_plus` operates on the UTF-8 byte
sequence of a Python `str`, and UTF-8 encoding is a bijection onto valid
byte sequences, so identifiers, URLs and paths are modelled directly as
sequences of bytes. -/
abbrev Str := List (Fin 256)

/-- Bytes of a string literal.  Every literal occurring in `Dryad.py` is
ASCII, where the UTF-8 bytes are exactly the code points. -/
def lit (s : String) : Str :=
  s.data.map (fun c => (⟨c.toNat % 256, Nat.mod_lt _ (by norm_num)⟩ : Fin 256))

/-- Bytes never escaped by `urllib.parse.quote`: ASCII alphanumerics and
`_.-~` (urllib's always-safe set).  `quote_plus` is invoked with the
default `safe=''`, so every other byte is escaped. -/
def isSafeByte (b : Fin 256) : Bool :=
  (48 ≤ b.val && b.val ≤ 57) || (65 ≤ b.val && b.val ≤ 90) ||
    (97 ≤ b.val && b.val ≤ 122) || b.val == 95 || b.val == 46 ||
    b.val == 45 || b.val == 126

/-- Uppercase hexadecimal digit of `n < 16`, as an ASCII byte
(`0`-`9` are 48-57, `A`-`F` are 65-70). -/
def hexDigit (n : Nat) : Fin 256 :=
  ⟨(if n < 10 then 48 + n else 55 + n) % 256, Nat.mod_lt _ (by norm_num)⟩

/-- Encoding of a single byte under `urllib.parse.quote_plus`: safe bytes
stand for themselves, a space (32) becomes `+` (43), every other byte
becomes `%` (37) followed by its two uppercase hex digits. -/
def quoteByte (b : Fin 256) : Str :=
  if isSafeByte b then [b]
  else if b.val = 32 then [⟨43, by norm_num⟩]
  else [⟨37, by norm_num⟩, hexDigit (b.val / 16), hexDigit (b.val % 16)]

/-- Embeds `urllib.parse.quote_plus` on the UTF-8 bytes of a string. -/
def quote_plus (s : Str) : Str := s.flatMap quoteByte

/-- Embeds `encode_dryad_doi_url` (Dryad.py lines 130-143): prepends the
namespace `doi:10.5061/dryad.` to the identifier, percent-encodes the
whole string and appends it, plus the endpoint suffix, to the fixed base
URL.  (The source names the suffix parameter "postfix"; it defaults to the
empty string.) -/
def encode_dryad_doi_url (doi_identifier : Str) (suffix : Str := []) : Str :=
  lit "https://datadryad.org/api/v2/datasets/"
    ++ quote_plus (lit "doi:10.5061/dryad." ++ doi_identifier) ++ suffix

/-!  Streaming download accounting (`get_dryad_dataset_file`'s loop). -/

/-- State of the chunked download loop of `get_dryad_dataset_file`
(Dryad.py lines 261-271): the bytes appended to the destination file so
far, the `downloaded` byte counter, and the progress percentages printed
so far (exact rationals standing for the printed floats). -/
structure DLState where
  content : List Nat
  downloaded : Nat
  percents : List ℚ
deriving DecidableEq

/-- One iteration of the download loop: an empty chunk is skipped
(`if chunk:`), a non-empty chunk is written to the file, added to the
counter, and when `total_size > 0` a percentage
`(downloaded / total_size) * 100` is printed. -/
def processChunk (total_size : Nat) (s : DLState) (chunk : List Nat) : DLState :=
  if chunk = [] then s
  else
    { content := s.content ++ chunk
      downloaded := s.downloaded + chunk.length
      percents := s.percents ++
        (if 0 < total_size
         then [((s.downloaded + chunk.length : ℚ) / (total_size : ℚ)) * 100]
         else []) }

/-- The whole download loop: fold `processChunk` over the chunk sequence
`response.iter_content(chunk_size=8192)` delivers, starting from an empty
file (mode `'wb'` truncates) and a zero counter. -/
def runDownload (total_size : Nat) (chunks : List (List Nat)) : DLState :=
  chunks.foldl (processChunk total_size) ⟨[], 0, []⟩

/-- Characterization of the percentage trace emitted by the download loop
from a given value `d` of the `downloaded` counter; used to reason about
`runDownload` by recursion on the chunk list. -/
def pcts (total_size : Nat) (d : Nat) : List (List Nat) → List ℚ
  | [] => []
  | c :: cs =>
    if c = [] then pcts total_size d cs
    else
      (if 0 < total_size
       then [((d + c.length : ℚ) / (total_size : ℚ)) * 100]
       else []) ++ pcts total_size (d + c.length) cs

/-!  The orchestration layer: remote service, local filesystem, request
log.  HTTP responses are modelled at the JSON-shape granularity the
script reads from them; `requests` transport failures
(`RequestException` without a response) are the `.error ()` case of each
remote call. -/

/-- One entry of the `_embedded.stash:versions` list of a versions
response: the script reads only its `_links.self.href`. -/
structure VersionEntry where
  selfHref : Str
deriving DecidableEq

/-- Response to the versions-listing GET, as read by
`get_dryad_dataset_version`: the HTTP status, the `count` field (an
arbitrary integer: the script converts it with `int(...)` and never checks
it against the list), and the embedded versions list. -/
structure VersionsResp where
  status : Nat
  count : Int
  versions : List VersionEntry
deriving DecidableEq

/-- One entry of the `_embedded.stash:files` list: the script reads its
`_links.self.href` and its `path`. -/
structure FileEntry where
  selfHref : Str
  path : Str
deriving DecidableEq

/-- Response to the files-listing GET, as read by `get_dryad_dataset`. -/
structure FilesResp where
  status : Nat
  files : List FileEntry
deriving DecidableEq

/-- Response to the streamed per-file download GET: status, the declared
`content-length` header (0 when absent, as in
`int(response.headers.get('content-length', 0))`), and the chunk sequence
`iter_content` yields. -/
structure DownloadResp where
  status : Nat
  contentLength : Nat
  chunks : List (List Nat)
deriving DecidableEq

/-- The remote service, as a map from request URL to outcome: `.error ()`
is a transport-level `requests.exceptions.RequestException`, `.ok` is an
HTTP response (of the shape the respective caller parses). -/
structure Remote where
  versionsAt : Str → Except Unit VersionsResp
  filesAt : Str → Except Unit FilesResp
  downloadAt : Str → Except Unit DownloadResp

/-- A network request issued by the script (recorded even when the
transport fails). -/
inductive Request where
  | getVersions (url : Str)
  | getFiles (url : Str)
  | download (url : Str)
deriving DecidableEq

/-- Contents of a local file: raw downloaded bytes, or a zip archive
holding entries keyed by their path relative to the zipped folder. -/
inductive FileData where
  | raw (bytes : List Nat)
  | zipArchive (entries : List (Str × FileData))

/-- The world the script acts on: the remote service, the
`PARENT_DIRECTORY` configuration value (`[]` when missing or empty), a
flag telling whether opening/writing a zip archive succeeds, the ordered
log of issued requests, the set of local directories, and the local files
(path to content). -/
structure World where
  remote : Remote
  parentDirectory : Str
  zipOk : Bool
  log : List Request
  dirs : List Str
  files : List (Str × FileData)

/-- Record one issued network request. -/
def World.logReq (w : World) (r : Request) : World := { w with log := w.log ++ [r] }

/-- Record a created directory (`os.makedirs(..., exist_ok=True)`). -/
def World.addDir (w : World) (d : Str) : World := { w with dirs := w.dirs ++ [d] }

/-- Create or overwrite a local file. -/
def World.setFile (w : World) (p : Str) (d : FileData) : World :=
  { w with files := w.files.filter (fun e => e.1 ≠ p) ++ [(p, d)] }

/-- Delete a directory and everything under it (`shutil.rmtree`). -/
def World.removeTree (w : World) (p : Str) : World :=
  { w with dirs := w.dirs.filter (fun d => ¬(d = p ∨ (p ++ lit "/").isPrefixOf d)),
           files := w.files.filter (fun e => ¬(p ++ lit "/").isPrefixOf e.1) }

/-- Content of the local file at `p`, if it exists. -/
def fsGet (w : World) (p : Str) : Option FileData :=
  (w.files.find? (fun e => e.1 = p)).map (fun e => e.2)

/-- Embeds `os.path.join` for the relative second components the script
passes. -/
def pathJoin (a b : Str) : Str := a ++ lit "/" ++ b

/-- Python string interpolation of a `str | None` value (`None` prints as
`"None"`, as happens to `version` in `f"https://datadryad.org{version}/files"`). -/
def pyStrOpt : Option Str → Str
  | none => lit "None"
  | some s => s

/-- Python list subscript `l[i]` with an `int` index: non-negative indexes
from the front, negative from the back, out of range is an `IndexError`
(`none`). -/
def pyIndex {α : Type} (l : List α) (i : Int) : Option α :=
  if 0 ≤ i then l[i.toNat]?
  else if 0 ≤ (l.length : Int) + i then l[((l.length : Int) + i).toNat]?
  else none

/-- Entries `zipfile` collects when zipping `source_path`: every local
file under the folder, keyed by `os.path.relpath(file_path, source_path)`. -/
def zipEntries (w : World) (source_path : Str) : List (Str × FileData) :=
  w.files.filterMap (fun e =>
    if (source_path ++ lit "/").isPrefixOf e.1
    then some (e.1.drop (source_path ++ lit "/").length, e.2)
    else none)

/-- Embeds `zip_folder` (Dryad.py lines 62-82): writes
`destination_path/zip_name` holding every file under `source_path`, then,
only after the archive is fully written, removes the source folder when
`remove_source` is set.  A `None` destination faults in `os.path.join`
(`TypeError`); a failure opening or writing the archive (modelled by
`zipOk = false`) raises `OSError` out of the `with` block before the
`shutil.rmtree` line is reached. -/
def zip_folder (source_path : Str) (destination_path : Option Str) (w : World)
    (remove_source : Bool := true) (zip_name : Str := lit "dataset.zip") :
    Except PyExc Unit × World :=
  match destination_path with
  | none => (.error .typeError, w)
  | some dst =>
    let zip_file_path := pathJoin dst zip_name
    if w.zipOk then
      let w := w.setFile zip_file_path (.zipArchive (zipEntries w source_path))
      if remove_source then (.ok (), w.removeTree source_path)
      else (.ok (), w)
    else (.error .osError, w)

/-- Embeds `create_new_dir` (Dryad.py lines 145-170): fails (`None`)
when `PARENT_DIRECTORY` is missing/empty, otherwise creates and returns
`{PARENT_DIRECTORY}{doi}` with `_{suffix}` appended when the suffix is
truthy.  (The source names the suffix parameter "postfix";
`os.makedirs(..., exist_ok=True)` is modelled as succeeding.) -/
def create_new_dir (doi_identifier : Str) (suffix : Option Str) (w : World) :
    Option Str × World :=
  if w.parentDirectory = [] then (none, w)
  else
    let base := w.parentDirectory ++ doi_identifier
    let directory_path :=
      match suffix with
      | some s => if s = [] then base else base ++ lit "_" ++ s
      | none => base
    (some directory_path, w.addDir directory_path)

/-- Embeds `get_dryad_dataset_version` (Dryad.py lines 172-203): GETs the
versions listing; on transport failure the `except` clause logs and the
function returns `None`; on a 200 it subscripts the embedded versions list
at `int(count) - 1` (an out-of-range subscript is an uncaught
`IndexError`), returns `None` for an empty (falsy) href and the href
otherwise; any non-200 status falls through to an implicit `None`. -/
def get_dryad_dataset_version (doi_identifier : Str) (token : Str) (w : World) :
    Except PyExc (Option Str) × World :=
  let API_URL := encode_dryad_doi_url doi_identifier (lit "/versions")
  let w := w.logReq (.getVersions API_URL)
  match w.remote.versionsAt API_URL with
  | .error _ => (.ok none, w)
  | .ok response =>
    if response.status = 200 then
      let versions_count := response.count
      match pyIndex response.versions (versions_count - 1) with
      | none => (.error .indexError, w)
      | some v =>
        if v.selfHref = [] then (.ok none, w)
        else (.ok (some v.selfHref), w)
    else (.ok none, w)

/-- Embeds `get_dryad_dataset_file` (Dryad.py lines 242-275): issues the
streamed download GET; `raise_for_status()` raises `HTTPError` exactly for
statuses 400-599, and both it and transport failures are caught by the
function's own `except` clause, before the destination file is opened; on
any other status the destination is opened with mode `'wb'`
(created/truncated) and the chunk loop runs. -/
def get_dryad_dataset_file (file_url : Str) (local_file_path : Str) (token : Str)
    (w : World) : World :=
  let API_URL := lit "https://datadryad.org" ++ file_url ++ lit "/download"
  let w := w.logReq (.download API_URL)
  match w.remote.downloadAt API_URL with
  | .error _ => w
  | .ok response =>
    if 400 ≤ response.status ∧ response.status < 600 then w
    else
      let total_size := response.contentLength
      w.setFile local_file_path (.raw (runDownload total_size response.chunks).content)

/-- The per-file loop of `get_dryad_dataset` (Dryad.py lines 229-230):
download every listed file into the dataset directory, in listing order. -/
def download_all (file_list : List FileEntry) (dataset_directory : Str)
    (token : Str) (w : World) : World :=
  file_list.foldl
    (fun w file =>
      get_dryad_dataset_file file.selfHref
        (pathJoin dataset_directory file.path) token w)
    w

/-- Embeds `get_dryad_dataset` (Dryad.py lines 205-240): resolves the
latest version (an `IndexError` from there propagates — the `except`
clause catches only `RequestException`), GETs
`https://datadryad.org{version}/files`, and on a 200 creates the
`{doi}_data` working directory, downloads every listed file, creates the
final `{doi}` directory and zips the working directory into it.  Errors
escaping `zip_folder` (`OSError`, `TypeError`) also propagate. -/
def get_dryad_dataset (doi_identifier : Str) (token : Str) (w : World) :
    Except PyExc Unit × World :=
  match get_dryad_dataset_version doi_identifier token w with
  | (.error e, w) => (.error e, w)
  | (.ok version, w) =>
    let API_URL := lit "https://datadryad.org" ++ pyStrOpt version ++ lit "/files"
    let w := w.logReq (.getFiles API_URL)
    match w.remote.filesAt API_URL with
    | .error _ => (.ok (), w)
    | .ok response =>
      if response.status = 200 then
        let file_list := response.files
        match create_new_dir doi_identifier (some (lit "data")) w with
        | (none, w) => (.ok (), w)
        | (some dataset_directory, w) =>
          let w := download_all file_list dataset_directory token w
          match create_new_dir doi_identifier none w with
          | (final_directory, w) =>
            zip_folder dataset_directory final_directory w
      else (.ok (), w)

/-- The per-identifier loop of `main` (Dryad.py lines 296-299): process
each DOI in turn with `get_dryad_dataset`; there is no surrounding
`try`, so any exception escaping one identifier's processing aborts the
whole loop. -/
def main_loop (token : Str) (dois : List Str) (w : World) :
    Except PyExc Unit × World :=
  match dois with
  | [] => (.ok (), w)
  | doi :: rest =>
    match get_dryad_dataset doi token w with
    | (.ok _, w) => main_loop token rest w
    | (.error e, w) => (.error e, w)

/-- A concrete world whose remote gives the same answer to every request
of a kind; used to instantiate theorems on explicit inputs. -/
def mkWorld (vs : Except Unit VersionsResp) (fs : Except Unit FilesResp)
    (dl : Except Unit DownloadResp) (parent : Str) (zipOk : Bool)
    (files : List (Str × FileData) := []) : World :=
  { remote := { versionsAt := fun _ => vs, filesAt := fun _ => fs,
                downloadAt := fun _ => dl },
    parentDirectory := parent, zipOk := zipOk, log := [], dirs := [],
    files := files }

/-!  Claims C1 and C10: the token cache. -/

/-- Helper: loading the record written by `cache_token` compares the
current time against the stored expiry `now + (L*60 - 1)` minutes. -/
theorem load_of_cache_token (t : String) (L now n : Int) :
    load_cached_token (some (cache_token t L now)) n
      = if n < now + (L * 60 - 1)
        then .ok (some (.jstr t), some (cache_token t L now))
        else .ok (none, none) := by
  simp [load_cached_token, cache_token, dictGet, fromisoformat]

/-- Claim C1 (counterexample): the round trip is not valid for *every*
lifetime: saving with lifetime `L = 0` hours stores an expiry one minute
in the past, so an immediate load does not return the token (it reports a
cache miss and deletes the record). -/
theorem cache_token_zero_lifetime_no_round_trip :
    load_cached_token (some (cache_token "tok" 0 0)) 0
      ≠ .ok (some (.jstr "tok"), some (cache_token "tok" 0 0)) := by
  have h : load_cached_token (some (cache_token "tok" 0 0)) 0 = .ok (none, none) := rfl
  rw [h]
  intro hc
  simp at hc

/-- Claim C1 (amended): for every token `t` and lifetime `L ≥ 1` hours,
saving and immediately loading returns exactly `t` (and keeps the record),
and any load at or after the stored expiry instant `now + (L*60 - 1)`
minutes returns absent and deletes the persisted record. -/
theorem cache_token_round_trip (t : String) (L now n : Int) (hL : 1 ≤ L) :
    load_cached_token (some (cache_token t L now)) now
      = .ok (some (.jstr t), some (cache_token t L now)) ∧
    (now + (L * 60 - 1) ≤ n →
      load_cached_token (some (cache_token t L now)) n = .ok (none, none)) := by
  constructor
  · rw [load_of_cache_token, if_pos (by omega)]
  · intro hn
    rw [load_of_cache_token, if_neg (by omega)]

/-- Claim C1 (witness): the amended round trip at token `"tok"`,
lifetime 10 hours, saved at instant 0 and re-loaded at instant 599
(the expiry). -/
theorem cache_token_round_trip_witness :
    (1 : Int) ≤ 10 ∧
    (load_cached_token (some (cache_token "tok" 10 0)) 0
        = .ok (some (.jstr "tok"), some (cache_token "tok" 10 0)) ∧
      ((0 : Int) + (10 * 60 - 1) ≤ 599 →
        load_cached_token (some (cache_token "tok" 10 0)) 599 = .ok (none, none))) :=
  ⟨by norm_num, cache_token_round_trip "tok" 10 0 599 (by norm_num)⟩

/-- Claim C10 (counterexample): a well-formed-expiry record that merely
*lacks the token field* is not tolerated the way the claim states: when
its expiry has passed, `load_cached_token` deletes the cache file (the
deletion branch never looks at the token field), rather than returning
absent with the file kept. -/
theorem load_cached_token_expired_without_token_deletes :
    load_cached_token (some (.json (.jobj [("expiry", .jtime 0)]))) 5
      ≠ .ok (none, some (.json (.jobj [("expiry", .jtime 0)]))) := by
  have h : load_cached_token (some (.json (.jobj [("expiry", .jtime 0)]))) 5
      = .ok (none, none) := rfl
  rw [h]
  intro hc
  simp at hc

/-- Claim C10 (amended): `load_cached_token` returns absent without
raising and without deleting when the file content is not valid JSON, or
is a JSON object without an `"expiry"` field, or with a non-ISO `"expiry"`
string, or unexpired but without a `"token"` field; but on a well-formed
expired `"expiry"` it deletes the file even when the token field is
missing (deletion depends only on the expiry).  (Non-object JSON content,
or a non-string `"expiry"` value, instead raises an uncaught
`TypeError`.) -/
theorem load_cached_token_corrupt_tolerant (now e : Int) (s : String)
    (fields : List (String × JVal)) :
    (load_cached_token (some .malformed) now = .ok (none, some .malformed)) ∧
    (dictGet fields "expiry" = none →
      load_cached_token (some (.json (.jobj fields))) now
        = .ok (none, some (.json (.jobj fields)))) ∧
    (dictGet fields "expiry" = some (.jstr s) →
      load_cached_token (some (.json (.jobj fields))) now
        = .ok (none, some (.json (.jobj fields)))) ∧
    (dictGet fields "expiry" = some (.jtime e) → now < e →
      dictGet fields "token" = none →
      load_cached_token (some (.json (.jobj fields))) now
        = .ok (none, some (.json (.jobj fields)))) ∧
    (dictGet fields "expiry" = some (.jtime e) → e ≤ now →
      load_cached_token (some (.json (.jobj fields))) now = .ok (none, none)) := by
  refine ⟨rfl, ?_, ?_, ?_, ?_⟩
  · intro h
    simp [load_cached_token, h]
  · intro h
    simp [load_cached_token, h, fromisoformat]
  · intro h hlt htok
    simp [load_cached_token, h, fromisoformat, if_pos hlt, htok]
  · intro h hle
    simp [load_cached_token, h, fromisoformat, if_neg (not_lt.mpr hle)]

/-- Claim C10 (witness): the four tolerated/deleting branches of the
amended claim exercised on concrete cache files. -/
theorem load_cached_token_corrupt_tolerant_witness :
    (load_cached_token (some (.json (.jobj [("a", .jnull)]))) 0
        = .ok (none, some (.json (.jobj [("a", .jnull)])))) ∧
    (load_cached_token (some (.json (.jobj [("expiry", .jstr "not-a-date")]))) 0
        = .ok (none, some (.json (.jobj [("expiry", .jstr "not-a-date")])))) ∧
    (load_cached_token (some (.json (.jobj [("expiry", .jtime 9)]))) 0
        = .ok (none, some (.json (.jobj [("expiry", .jtime 9)])))) ∧
    (load_cached_token
        (some (.json (.jobj [("expiry", .jtime 9), ("token", .jstr "t")]))) 9
        = .ok (none, none)) :=
  ⟨(load_cached_token_corrupt_tolerant 0 0 "" [("a", .jnull)]).2.1 rfl,
   (load_cached_token_corrupt_tolerant 0 0 "not-a-date"
      [("expiry", .jstr "not-a-date")]).2.2.1 rfl,
   (load_cached_token_corrupt_tolerant 0 9 "" [("expiry", .jtime 9)]).2.2.2.1 rfl
      (by norm_num) rfl,
   (load_cached_token_corrupt_tolerant 9 9 ""
      [("expiry", .jtime 9), ("token", .jstr "t")]).2.2.2.2 rfl (by norm_num)⟩

/-!  Claim C8: the identifier encoder. -/

/-- Helper: `hexDigit` is injective below 16. -/
theorem hexDigit_inj {m n : Nat} (hm : m < 16) (hn : n < 16)
    (h : hexDigit m = hexDigit n) : m = n := by
  have h' : (if m < 10 then 48 + m else 55 + m) % 256
      = (if n < 10 then 48 + n else 55 + n) % 256 := congrArg Fin.val h
  split_ifs at h' <;> omega

/-- Helper: a safe byte is not the plus sign (43 is escaped as `%2B`). -/
theorem safe_not_plus {a : Fin 256} (ha : isSafeByte a) : a.val ≠ 43 := by
  intro h
  unfold isSafeByte at ha
  simp only [Bool.or_eq_true, Bool.and_eq_true, decide_eq_true_eq,
    beq_iff_eq] at ha
  omega

/-- Helper: a safe byte is not the percent sign (37 is escaped as `%25`). -/
theorem safe_not_pct {a : Fin 256} (ha : isSafeByte a) : a.val ≠ 37 := by
  intro h
  unfold isSafeByte at ha
  simp only [Bool.or_eq_true, Bool.and_eq_true, decide_eq_true_eq,
    beq_iff_eq] at ha
  omega

/-- Helper: the safe branch of `quoteByte`. -/
theorem quoteByte_safe {b : Fin 256} (h : isSafeByte b) : quoteByte b = [b] := by
  unfold quoteByte
  rw [if_pos h]

/-- Helper: the space branch of `quoteByte`. -/
theorem quoteByte_space {b : Fin 256} (h : ¬ isSafeByte b) (h32 : b.val = 32) :
    quoteByte b = [⟨43, by norm_num⟩] := by
  unfold quoteByte
  rw [if_neg (by simpa using h), if_pos h32]

/-- Helper: the percent-escape branch of `quoteByte`. -/
theorem quoteByte_pct {b : Fin 256} (h : ¬ isSafeByte b) (h32 : b.val ≠ 32) :
    quoteByte b
      = [⟨37, by norm_num⟩, hexDigit (b.val / 16), hexDigit (b.val % 16)] := by
  unfold quoteByte
  rw [if_neg (by simpa using h), if_neg h32]

/-- Helper: `quoteByte` is a prefix code: equal concatenations starting
with two byte encodings force the bytes and the remainders to agree. -/
theorem quoteByte_append_inj (a b : Fin 256) (x y : Str)
    (h : quoteByte a ++ x = quoteByte b ++ y) : a = b ∧ x = y := by
  by_cases ha : isSafeByte a <;> by_cases hb : isSafeByte b
  · rw [quoteByte_safe ha, quoteByte_safe hb] at h
    simp only [List.cons_append, List.nil_append, List.cons.injEq] at h
    exact h
  · by_cases hb2 : b.val = 32
    · rw [quoteByte_safe ha, quoteByte_space hb hb2] at h
      simp only [List.cons_append, List.nil_append, List.cons.injEq] at h
      exact absurd (congrArg Fin.val h.1) (safe_not_plus ha)
    · rw [quoteByte_safe ha, quoteByte_pct hb hb2] at h
      simp only [List.cons_append, List.nil_append, List.cons.injEq] at h
      exact absurd (congrArg Fin.val h.1) (safe_not_pct ha)
  · by_cases ha2 : a.val = 32
    · rw [quoteByte_space ha ha2, quoteByte_safe hb] at h
      simp only [List.cons_append, List.nil_append, List.cons.injEq] at h
      exact absurd (congrArg Fin.val h.1.symm) (safe_not_plus hb)
    · rw [quoteByte_pct ha ha2, quoteByte_safe hb] at h
      simp only [List.cons_append, List.nil_append, List.cons.injEq] at h
      exact absurd (congrArg Fin.val h.1.symm) (safe_not_pct hb)
  · by_cases ha2 : a.val = 32 <;> by_cases hb2 : b.val = 32
    · rw [quoteByte_space ha ha2, quoteByte_space hb hb2] at h
      simp only [List.cons_append, List.nil_append, List.cons.injEq] at h
      exact ⟨Fin.ext (by omega), h.2⟩
    · rw [quoteByte_space ha ha2, quoteByte_pct hb hb2] at h
      simp only [List.cons_append, List.nil_append, List.cons.injEq] at h
      exact absurd (congrArg Fin.val h.1) (by simp)
    · rw [quoteByte_pct ha ha2, quoteByte_space hb hb2] at h
      simp only [List.cons_append, List.nil_append, List.cons.injEq] at h
      exact absurd (congrArg Fin.val h.1) (by simp)
    · rw [quoteByte_pct ha ha2, quoteByte_pct hb hb2] at h
      simp only [List.cons_append, List.nil_append, List.cons.injEq] at h
      obtain ⟨-, hhi, hlo, hxy⟩ := h
      refine ⟨?_, hxy⟩
      have hha : a.val / 16 < 16 := Nat.div_lt_of_lt_mul (by have := a.isLt; omega)
      have hhb : b.val / 16 < 16 := Nat.div_lt_of_lt_mul (by have := b.isLt; omega)
      have h1 : a.val / 16 = b.val / 16 := hexDigit_inj hha hhb hhi
      have h2 : a.val % 16 = b.val % 16 :=
        hexDigit_inj (Nat.mod_lt _ (by norm_num)) (Nat.mod_lt _ (by norm_num)) hlo
      exact Fin.ext (by omega)

/-- Helper: every byte encodes to a non-empty token. -/
theorem quoteByte_ne_nil (b : Fin 256) : quoteByte b ≠ [] := by
  unfold quoteByte
  split_ifs <;> simp

/-- Helper: `quote_plus` is injective (its output is uniquely decodable). -/
theorem quote_plus_injective : Function.Injective quote_plus := by
  intro s1 s2 h
  induction s1 generalizing s2 with
  | nil =>
    cases s2 with
    | nil => rfl
    | cons b t =>
      exfalso
      unfold quote_plus at h
      simp only [List.flatMap_nil, List.flatMap_cons] at h
      exact quoteByte_ne_nil b (List.append_eq_nil.mp h.symm).1
  | cons a t ih =>
    cases s2 with
    | nil =>
      exfalso
      unfold quote_plus at h
      simp only [List.flatMap_nil, List.flatMap_cons] at h
      exact quoteByte_ne_nil a (List.append_eq_nil.mp h).1
    | cons b t2 =>
      unfold quote_plus at h
      simp only [List.flatMap_cons] at h
      obtain ⟨hab, ht⟩ := quoteByte_append_inj a b _ _ h
      rw [hab, ih ht]

/-- Helper: `encode_dryad_doi_url` (with the default empty suffix) is
injective in the identifier. -/
theorem encode_dryad_doi_url_injective (id1 id2 : Str)
    (h : encode_dryad_doi_url id1 = encode_dryad_doi_url id2) : id1 = id2 := by
  unfold encode_dryad_doi_url at h
  rw [List.append_nil, List.append_nil] at h
  have h1 := List.append_cancel_left h
  have h2 := quote_plus_injective h1
  exact List.append_cancel_left h2

/-- Claim C8: `encode_dryad_doi_url` is pure (the same identifier always
yields the byte-identical URL) and collision-free: distinct non-empty
identifiers yield distinct URLs. -/
theorem encode_dryad_doi_url_pure_collision_free (id1 id2 : Str)
    (h1 : id1 ≠ []) (h2 : id2 ≠ []) (hne : id1 ≠ id2) :
    encode_dryad_doi_url id1 = encode_dryad_doi_url id1 ∧
    encode_dryad_doi_url id1 ≠ encode_dryad_doi_url id2 :=
  ⟨rfl, fun h => hne (encode_dryad_doi_url_injective id1 id2 h)⟩

/-- Claim C8 (witness): the identifiers `"abcd1234"` and `"ab cd"` (as
UTF-8 bytes) are distinct and non-empty, and their encoded URLs differ. -/
theorem encode_dryad_doi_url_pure_collision_free_witness :
    (lit "abcd1234" ≠ ([] : Str) ∧ lit "ab cd" ≠ ([] : Str) ∧
      lit "abcd1234" ≠ lit "ab cd") ∧
    (encode_dryad_doi_url (lit "abcd1234") = encode_dryad_doi_url (lit "abcd1234") ∧
      encode_dryad_doi_url (lit "abcd1234") ≠ encode_dryad_doi_url (lit "ab cd")) :=
  ⟨⟨by decide, by decide, by decide⟩,
   encode_dryad_doi_url_pure_collision_free (lit "abcd1234") (lit "ab cd")
     (by decide) (by decide) (by decide)⟩

/-- Sanity check of the encoder model: the versions URL of identifier
`abcd1234` is the percent-encoded URL the script would request. -/
theorem encode_dryad_doi_url_example :
    encode_dryad_doi_url (lit "abcd1234") (lit "/versions")
      = lit
        "https://datadryad.org/api/v2/datasets/doi%3A10.5061%2Fdryad.abcd1234/versions" := by
  decide

/-!  Claim C7: download accounting. -/

/-- Helper: closed form of the download loop's fold from any starting
state. -/
theorem foldl_processChunk (T : Nat) (chunks : List (List Nat)) (s : DLState) :
    chunks.foldl (processChunk T) s
      = ⟨s.content ++ chunks.flatten, s.downloaded + (chunks.map List.length).sum,
         s.percents ++ pcts T s.downloaded chunks⟩ := by
  induction chunks generalizing s with
  | nil => simp [pcts]
  | cons c cs ih =>
    by_cases hc : c = []
    · subst hc
      simp [processChunk, pcts, ih s]
    · rw [List.foldl_cons, ih, processChunk, if_neg hc]
      simp only [pcts, if_neg hc]
      refine DLState.mk.injEq .. |>.mpr ⟨by simp, by simp; omega, by simp⟩

/-- Helper: the download loop writes exactly the concatenation of the
chunks, counts their total length, and prints the `pcts` trace. -/
theorem runDownload_eq (T : Nat) (chunks : List (List Nat)) :
    runDownload T chunks
      = ⟨chunks.flatten, (chunks.map List.length).sum, pcts T 0 chunks⟩ := by
  rw [runDownload, foldl_processChunk]
  simp

/-- Helper: every printed percentage is at least the percentage of the
counter value the trace starts from. -/
theorem pcts_lower {T : Nat} (hT : 0 < T) :
    ∀ (cs : List (List Nat)) (d : Nat), ∀ q ∈ pcts T d cs,
      ((d : ℚ) / (T : ℚ)) * 100 ≤ q := by
  intro cs
  induction cs with
  | nil => intro d q hq; simp [pcts] at hq
  | cons c cs ih =>
    intro d q hq
    by_cases hc : c = []
    · rw [pcts, if_pos hc] at hq
      exact ih d q hq
    · rw [pcts, if_neg hc, if_pos hT] at hq
      have hTq : (0 : ℚ) < (T : ℚ) := by exact_mod_cast hT
      have h0 : (0 : ℚ) ≤ (c.length : ℚ) := by positivity
      have hstep : ((d : ℚ) / (T : ℚ)) * 100
          ≤ (((d : ℚ) + (c.length : ℚ)) / (T : ℚ)) * 100 :=
        mul_le_mul_of_nonneg_right
          ((div_le_div_iff_of_pos_right hTq).mpr (by linarith)) (by norm_num)
      rcases List.mem_append.mp hq with h1 | h2
      · rw [List.mem_singleton] at h1
        subst h1
        push_cast at hstep
        linarith
      · have hrec := ih (d + c.length) q h2
        push_cast at hrec
        linarith

/-- Helper: a trace over chunks of total length zero is empty (all chunks
are empty and skipped). -/
theorem pcts_of_sum_zero (T : Nat) :
    ∀ (cs : List (List Nat)) (d : Nat), (cs.map List.length).sum = 0 →
      pcts T d cs = [] := by
  intro cs
  induction cs with
  | nil => intro d _; rfl
  | cons c cs ih =>
    intro d hsum
    simp only [List.map_cons, List.sum_cons] at hsum
    have hc : c = [] := List.eq_nil_of_length_eq_zero (by omega)
    rw [pcts, if_pos hc]
    exact ih d (by omega)

/-- Helper: a non-empty trace means some chunk carried bytes. -/
theorem sum_pos_of_pcts_ne_nil {T : Nat} {cs : List (List Nat)} {d : Nat}
    (h : pcts T d cs ≠ []) : 0 < (cs.map List.length).sum := by
  by_contra hs
  exact h (pcts_of_sum_zero T cs d (by omega))

/-- Helper: printed percentages are monotonically non-decreasing. -/
theorem pcts_chain {T : Nat} (hT : 0 < T) :
    ∀ (cs : List (List Nat)) (d : Nat), List.Chain' (· ≤ ·) (pcts T d cs) := by
  intro cs
  induction cs with
  | nil => intro d; simp [pcts]
  | cons c cs ih =>
    intro d
    by_cases hc : c = []
    · rw [pcts, if_pos hc]
      exact ih d
    · rw [pcts, if_neg hc, if_pos hT]
      rw [List.singleton_append, List.chain'_cons']
      refine ⟨?_, ih (d + c.length)⟩
      intro b hb
      have hmem : b ∈ pcts T (d + c.length) cs := List.mem_of_mem_head? hb
      have := pcts_lower hT cs (d + c.length) b hmem
      push_cast at this
      linarith

/-- Helper: when the chunks add up exactly to the declared total, the last
printed percentage is 100. -/
theorem pcts_getLast {T : Nat} (hT : 0 < T) :
    ∀ (cs : List (List Nat)) (d : Nat),
      d + (cs.map List.length).sum = T → 0 < (cs.map List.length).sum →
      (pcts T d cs).getLast? = some 100 := by
  intro cs
  induction cs with
  | nil => intro d _ h; simp at h
  | cons c cs ih =>
    intro d hsum hpos
    simp only [List.map_cons, List.sum_cons] at hsum hpos
    by_cases hc : c = []
    · rw [pcts, if_pos hc]
      have hc0 : c.length = 0 := by rw [hc]; rfl
      exact ih d (by omega) (by omega)
    · rw [pcts, if_neg hc, if_pos hT, List.singleton_append]
      by_cases hrest : (cs.map List.length).sum = 0
      · have hnil : pcts T (d + c.length) cs = [] := pcts_of_sum_zero T cs _ hrest
        rw [hnil]
        have hdc : d + c.length = T := by omega
        have hTq : ((T : ℚ)) ≠ 0 := by
          exact_mod_cast Nat.pos_iff_ne_zero.mp hT
        have : ((d : ℚ) + (c.length : ℚ)) = (T : ℚ) := by exact_mod_cast hdc
        rw [List.getLast?_singleton]
        congr 1
        rw [this, div_self hTq, one_mul]
      · have htail := ih (d + c.length) (by omega) (by omega)
        rw [List.getLast?_cons, htail]
        rfl

/-- Helper: every percentage before the last is strictly below 100. -/
theorem pcts_dropLast_lt {T : Nat} (hT : 0 < T) :
    ∀ (cs : List (List Nat)) (d : Nat),
      d + (cs.map List.length).sum = T →
      ∀ q ∈ (pcts T d cs).dropLast, q < 100 := by
  intro cs
  induction cs with
  | nil => intro d _ q hq; simp [pcts] at hq
  | cons c cs ih =>
    intro d hsum q hq
    simp only [List.map_cons, List.sum_cons] at hsum
    by_cases hc : c = []
    · rw [pcts, if_pos hc] at hq
      have hc0 : c.length = 0 := by rw [hc]; rfl
      exact ih d (by omega) q hq
    · rw [pcts, if_neg hc, if_pos hT, List.singleton_append] at hq
      rcases hrest : pcts T (d + c.length) cs with _ | ⟨r, rs⟩
      · rw [hrest] at hq
        simp at hq
      · rw [hrest] at hq
        rw [List.dropLast_cons₂] at hq
        rcases List.mem_cons.mp hq with h1 | h2
        · subst h1
          have hpos : 0 < (cs.map List.length).sum :=
            sum_pos_of_pcts_ne_nil (by rw [hrest]; simp)
          have hlt : d + c.length < T := by omega
          have hTq : (0 : ℚ) < (T : ℚ) := by exact_mod_cast hT
          have hx : ((d : ℚ) + (c.length : ℚ)) < (T : ℚ) := by exact_mod_cast hlt
          have : (((d : ℚ) + (c.length : ℚ)) / (T : ℚ)) * 100 < 1 * 100 :=
            mul_lt_mul_of_pos_right ((div_lt_one hTq).mpr hx) (by norm_num)
          linarith
        · have := ih (d + c.length) (by omega) q (by rw [hrest]; exact h2)
          linarith

/-- Claim C7: for a declared content length `S > 0` and a chunk sequence
that delivers exactly `S` bytes (a successful complete transfer), the
download loop writes exactly `S` bytes to disk with a final counter of
`S`, the printed percentages are monotonically non-decreasing, the last
one is 100, and every earlier one is strictly below 100 (100 is reached
only at completion). -/
theorem download_accounting (S : Nat) (chunks : List (List Nat)) (hS : 0 < S)
    (hsum : (chunks.map List.length).sum = S) :
    (runDownload S chunks).downloaded = S ∧
    (runDownload S chunks).content.length = S ∧
    List.Chain' (· ≤ ·) (runDownload S chunks).percents ∧
    (runDownload S chunks).percents.getLast? = some 100 ∧
    (∀ q ∈ (runDownload S chunks).percents.dropLast, q < 100) := by
  rw [runDownload_eq]
  refine ⟨hsum, ?_, pcts_chain hS chunks 0, ?_, ?_⟩
  · rw [List.length_flatten]
    exact hsum
  · exact pcts_getLast hS chunks 0 (by omega) (by omega)
  · exact pcts_dropLast_lt hS chunks 0 (by omega)

/-- Claim C7 (witness): a 3-byte transfer in chunks `[7]`, `[]`, `[8, 9]`
(the empty chunk is skipped by `if chunk:`). -/
theorem download_accounting_witness :
    (0 < 3 ∧ ([[7], [], [8, 9]].map List.length).sum = 3) ∧
    ((runDownload 3 [[7], [], [8, 9]]).downloaded = 3 ∧
     (runDownload 3 [[7], [], [8, 9]]).content.length = 3 ∧
     List.Chain' (· ≤ ·) (runDownload 3 [[7], [], [8, 9]]).percents ∧
     (runDownload 3 [[7], [], [8, 9]]).percents.getLast? = some 100 ∧
     (∀ q ∈ (runDownload 3 [[7], [], [8, 9]]).percents.dropLast, q < 100)) :=
  ⟨⟨by norm_num, by norm_num⟩,
   download_accounting 3 [[7], [], [8, 9]] (by norm_num) (by norm_num)⟩

/-!  Claim C2: version selection. -/

/-- Helper: the Python subscript at `length - 1` is the last element. -/
theorem pyIndex_last {α : Type} (l : List α) :
    pyIndex l ((l.length : Int) - 1) = l.getLast? := by
  rcases l with _ | ⟨a, t⟩
  · rfl
  · rw [pyIndex, if_pos (by simp)]
    rw [show (((a :: t).length : Int) - 1).toNat = (a :: t).length - 1 by omega]
    exact (List.getLast?_eq_getElem? _).symm

/-- Helper: evaluation of `get_dryad_dataset_version` on a 200 response
whose `count` field matches the versions list. -/
theorem gddv_eval (doi token : Str) (w : World) (resp : VersionsResp)
    (hresp : w.remote.versionsAt (encode_dryad_doi_url doi (lit "/versions"))
      = .ok resp)
    (h200 : resp.status = 200)
    (hcount : resp.count = (resp.versions.length : Int)) :
    get_dryad_dataset_version doi token w
      = (match resp.versions.getLast? with
         | none => (.error .indexError,
             w.logReq (.getVersions (encode_dryad_doi_url doi (lit "/versions"))))
         | some v =>
           if v.selfHref = [] then
             (.ok none,
               w.logReq (.getVersions (encode_dryad_doi_url doi (lit "/versions"))))
           else
             (.ok (some v.selfHref),
               w.logReq (.getVersions (encode_dryad_doi_url doi (lit "/versions"))))) := by
  rw [get_dryad_dataset_version]
  have hrem : (w.logReq (.getVersions (encode_dryad_doi_url doi (lit "/versions")))).remote
      = w.remote := rfl
  rw [hrem, hresp]
  simp only [h200, hcount, pyIndex_last, if_true]

/-- Claim C2 (amended): on a 200 versions response whose `count` field
equals the length `N` of the embedded list, the resolver reads exactly the
last element (index `N - 1`): for `N ≥ 1` it returns that element's
self-locator (absent if the locator is empty), and for `N = 0` it raises
an uncaught `IndexError` instead of returning absent. -/
theorem version_selection (doi token : Str) (w : World) (resp : VersionsResp)
    (v : VersionEntry)
    (hresp : w.remote.versionsAt (encode_dryad_doi_url doi (lit "/versions"))
      = .ok resp)
    (h200 : resp.status = 200)
    (hcount : resp.count = (resp.versions.length : Int)) :
    (resp.versions.getLast? = some v → v.selfHref ≠ [] →
      (get_dryad_dataset_version doi token w).1 = .ok (some v.selfHref)) ∧
    (resp.versions = [] →
      (get_dryad_dataset_version doi token w).1 = .error .indexError) := by
  constructor
  · intro hlast hhref
    rw [gddv_eval doi token w resp hresp h200 hcount, hlast]
    simp [hhref]
  · intro hnil
    rw [gddv_eval doi token w resp hresp h200 hcount, hnil]
    rfl

/-- Claim C2 (counterexample): on a 200 response with `count = 0` and an
empty versions list, `get_dryad_dataset_version` does not return absent
gracefully: the subscript `[-1]` on the empty list raises an uncaught
`IndexError`. -/
theorem version_selection_empty_crashes :
    (get_dryad_dataset_version (lit "abcd1234") (lit "tok")
        (mkWorld (.ok ⟨200, 0, []⟩) (.error ()) (.error ()) (lit "/data/") true)).1
      = .error .indexError ∧
    (get_dryad_dataset_version (lit "abcd1234") (lit "tok")
        (mkWorld (.ok ⟨200, 0, []⟩) (.error ()) (.error ()) (lit "/data/") true)).1
      ≠ .ok none := by
  have h1 : (get_dryad_dataset_version (lit "abcd1234") (lit "tok")
      (mkWorld (.ok ⟨200, 0, []⟩) (.error ()) (.error ()) (lit "/data/") true)).1
      = .error .indexError := rfl
  exact ⟨h1, by rw [h1]; simp⟩

/-- Claim C2 (witness): a 200 response with two versions: the second
(last) locator `/v2` is returned. -/
theorem version_selection_witness :
    ((mkWorld (.ok ⟨200, 2, [⟨lit "/v1"⟩, ⟨lit "/v2"⟩]⟩) (.error ()) (.error ())
          (lit "/data/") true).remote.versionsAt
        (encode_dryad_doi_url (lit "abcd1234") (lit "/versions"))
      = .ok ⟨200, 2, [⟨lit "/v1"⟩, ⟨lit "/v2"⟩]⟩) ∧
    (get_dryad_dataset_version (lit "abcd1234") (lit "tok")
        (mkWorld (.ok ⟨200, 2, [⟨lit "/v1"⟩, ⟨lit "/v2"⟩]⟩) (.error ()) (.error ())
          (lit "/data/") true)).1
      = .ok (some (lit "/v2")) :=
  ⟨rfl,
   (version_selection (lit "abcd1234") (lit "tok")
      (mkWorld (.ok ⟨200, 2, [⟨lit "/v1"⟩, ⟨lit "/v2"⟩]⟩) (.error ()) (.error ())
        (lit "/data/") true)
      ⟨200, 2, [⟨lit "/v1"⟩, ⟨lit "/v2"⟩]⟩ ⟨lit "/v2"⟩ rfl rfl (by norm_num)).1
     rfl (by decide)⟩

/-!  Projection lemmas for the world operations (proof plumbing). -/

@[simp] theorem logReq_remote (w : World) (r : Request) :
    (w.logReq r).remote = w.remote := rfl

@[simp] theorem logReq_parentDirectory (w : World) (r : Request) :
    (w.logReq r).parentDirectory = w.parentDirectory := rfl

@[simp] theorem logReq_zipOk (w : World) (r : Request) :
    (w.logReq r).zipOk = w.zipOk := rfl

@[simp] theorem logReq_dirs (w : World) (r : Request) :
    (w.logReq r).dirs = w.dirs := rfl

@[simp] theorem logReq_files (w : World) (r : Request) :
    (w.logReq r).files = w.files := rfl

@[simp] theorem logReq_log (w : World) (r : Request) :
    (w.logReq r).log = w.log ++ [r] := rfl

@[simp] theorem addDir_remote (w : World) (d : Str) :
    (w.addDir d).remote = w.remote := rfl

@[simp] theorem addDir_parentDirectory (w : World) (d : Str) :
    (w.addDir d).parentDirectory = w.parentDirectory := rfl

@[simp] theorem addDir_zipOk (w : World) (d : Str) :
    (w.addDir d).zipOk = w.zipOk := rfl

@[simp] theorem addDir_dirs (w : World) (d : Str) :
    (w.addDir d).dirs = w.dirs ++ [d] := rfl

@[simp] theorem addDir_files (w : World) (d : Str) :
    (w.addDir d).files = w.files := rfl

@[simp] theorem addDir_log (w : World) (d : Str) :
    (w.addDir d).log = w.log := rfl

@[simp] theorem setFile_remote (w : World) (p : Str) (d : FileData) :
    (w.setFile p d).remote = w.remote := rfl

@[simp] theorem setFile_parentDirectory (w : World) (p : Str) (d : FileData) :
    (w.setFile p d).parentDirectory = w.parentDirectory := rfl

@[simp] theorem setFile_zipOk (w : World) (p : Str) (d : FileData) :
    (w.setFile p d).zipOk = w.zipOk := rfl

@[simp] theorem setFile_dirs (w : World) (p : Str) (d : FileData) :
    (w.setFile p d).dirs = w.dirs := rfl

@[simp] theorem setFile_log (w : World) (p : Str) (d : FileData) :
    (w.setFile p d).log = w.log := rfl

@[simp] theorem removeTree_log (w : World) (p : Str) :
    (w.removeTree p).log = w.log := rfl

@[simp] theorem removeTree_remote (w : World) (p : Str) :
    (w.removeTree p).remote = w.remote := rfl

/-!  Claim C3: fail-fast on HTTP error statuses. -/

/-- Claim C3 (amended): on an HTTP *error* status (400-599),
`raise_for_status` raises before the destination file is opened, so the
local filesystem is unchanged; statuses outside both the 2xx success range
and the 4xx/5xx error range (e.g. 304) do not raise and do reach the
file-opening code. -/
theorem download_fail_fast (file_url local_file_path token : Str) (w : World)
    (resp : DownloadResp)
    (hresp : w.remote.downloadAt
        (lit "https://datadryad.org" ++ file_url ++ lit "/download") = .ok resp)
    (h4 : 400 ≤ resp.status) (h6 : resp.status < 600) :
    (get_dryad_dataset_file file_url local_file_path token w).files = w.files := by
  rw [get_dryad_dataset_file]
  rw [show (w.logReq (.download
      (lit "https://datadryad.org" ++ file_url ++ lit "/download"))).remote
      = w.remote from rfl]
  rw [hresp]
  show (if 400 ≤ resp.status ∧ resp.status < 600 then
      w.logReq (Request.download
        (lit "https://datadryad.org" ++ file_url ++ lit "/download"))
    else _).files = w.files
  rw [if_pos ⟨h4, h6⟩]
  rfl

/-- Claim C3 (witness): a 404 download leaves an existing destination file
untouched. -/
theorem download_fail_fast_witness :
    ((mkWorld (.error ()) (.error ()) (.ok ⟨404, 0, [[9]]⟩) (lit "/data/") true
        [(lit "dest", .raw [1, 2, 3])]).remote.downloadAt
        (lit "https://datadryad.org" ++ lit "/f" ++ lit "/download")
      = .ok ⟨404, 0, [[9]]⟩) ∧
    (400 ≤ 404 ∧ 404 < 600) ∧
    (get_dryad_dataset_file (lit "/f") (lit "dest") (lit "tok")
        (mkWorld (.error ()) (.error ()) (.ok ⟨404, 0, [[9]]⟩) (lit "/data/") true
          [(lit "dest", .raw [1, 2, 3])])).files
      = (mkWorld (.error ()) (.error ()) (.ok ⟨404, 0, [[9]]⟩) (lit "/data/") true
          [(lit "dest", .raw [1, 2, 3])]).files :=
  ⟨rfl, ⟨by norm_num, by norm_num⟩,
   download_fail_fast (lit "/f") (lit "dest") (lit "tok")
     (mkWorld (.error ()) (.error ()) (.ok ⟨404, 0, [[9]]⟩) (lit "/data/") true
       [(lit "dest", .raw [1, 2, 3])])
     ⟨404, 0, [[9]]⟩ rfl (by norm_num) (by norm_num)⟩

/-- Claim C3 (counterexample): a 304 response is a non-success status, yet
`raise_for_status` does not raise on it, so the destination file is opened
with mode `'wb'` and an existing destination is truncated — bytes on disk
change on a non-success status. -/
theorem download_304_modifies_destination :
    fsGet (get_dryad_dataset_file (lit "/f") (lit "dest") (lit "tok")
        (mkWorld (.error ()) (.error ()) (.ok ⟨304, 0, []⟩) (lit "/data/") true
          [(lit "dest", .raw [1, 2, 3])])) (lit "dest")
      = some (.raw []) ∧
    fsGet (get_dryad_dataset_file (lit "/f") (lit "dest") (lit "tok")
        (mkWorld (.error ()) (.error ()) (.ok ⟨304, 0, []⟩) (lit "/data/") true
          [(lit "dest", .raw [1, 2, 3])])) (lit "dest")
      ≠ some (.raw [1, 2, 3]) := by
  have h1 : fsGet (get_dryad_dataset_file (lit "/f") (lit "dest") (lit "tok")
      (mkWorld (.error ()) (.error ()) (.ok ⟨304, 0, []⟩) (lit "/data/") true
        [(lit "dest", .raw [1, 2, 3])])) (lit "dest")
      = some (.raw []) := rfl
  refine ⟨h1, ?_⟩
  rw [h1]
  simp

/-!  Invariants of the per-file download step and loop. -/

/-- Helper: a single file download never touches the directory set. -/
theorem gddf_dirs (file_url p token : Str) (w : World) :
    (get_dryad_dataset_file file_url p token w).dirs = w.dirs := by
  simp only [get_dryad_dataset_file, logReq_remote]
  rcases w.remote.downloadAt (lit "https://datadryad.org" ++ file_url ++ lit "/download")
    with e | resp
  · rfl
  · split
    · rfl
    · split <;> rfl

/-- Helper: a single file download never changes the remote. -/
theorem gddf_remote (file_url p token : Str) (w : World) :
    (get_dryad_dataset_file file_url p token w).remote = w.remote := by
  simp only [get_dryad_dataset_file, logReq_remote]
  rcases w.remote.downloadAt (lit "https://datadryad.org" ++ file_url ++ lit "/download")
    with e | resp
  · rfl
  · split
    · rfl
    · split <;> rfl

/-- Helper: a single file download never changes the configuration. -/
theorem gddf_parentDirectory (file_url p token : Str) (w : World) :
    (get_dryad_dataset_file file_url p token w).parentDirectory
      = w.parentDirectory := by
  simp only [get_dryad_dataset_file, logReq_remote]
  rcases w.remote.downloadAt (lit "https://datadryad.org" ++ file_url ++ lit "/download")
    with e | resp
  · rfl
  · split
    · rfl
    · split <;> rfl

/-- Helper: a single file download never changes the archiver flag. -/
theorem gddf_zipOk (file_url p token : Str) (w : World) :
    (get_dryad_dataset_file file_url p token w).zipOk = w.zipOk := by
  simp only [get_dryad_dataset_file, logReq_remote]
  rcases w.remote.downloadAt (lit "https://datadryad.org" ++ file_url ++ lit "/download")
    with e | resp
  · rfl
  · split
    · rfl
    · split <;> rfl

/-- Helper: a single file download issues exactly one download request,
whatever its outcome. -/
theorem gddf_log (file_url p token : Str) (w : World) :
    (get_dryad_dataset_file file_url p token w).log
      = w.log ++ [.download (lit "https://datadryad.org" ++ file_url ++ lit "/download")] := by
  simp only [get_dryad_dataset_file, logReq_remote]
  rcases w.remote.downloadAt (lit "https://datadryad.org" ++ file_url ++ lit "/download")
    with e | resp
  · rfl
  · split
    · rfl
    · split <;> rfl

/-- Helper: the download loop never touches the directory set. -/
theorem download_all_dirs (fl : List FileEntry) (dd token : Str) (w : World) :
    (download_all fl dd token w).dirs = w.dirs := by
  induction fl generalizing w with
  | nil => rfl
  | cons f fl ih =>
    show (download_all fl dd token
        (get_dryad_dataset_file f.selfHref (pathJoin dd f.path) token w)).dirs
      = w.dirs
    rw [ih, gddf_dirs]

/-- Helper: the download loop never changes the remote. -/
theorem download_all_remote (fl : List FileEntry) (dd token : Str) (w : World) :
    (download_all fl dd token w).remote = w.remote := by
  induction fl generalizing w with
  | nil => rfl
  | cons f fl ih =>
    show (download_all fl dd token
        (get_dryad_dataset_file f.selfHref (pathJoin dd f.path) token w)).remote
      = w.remote
    rw [ih, gddf_remote]

/-- Helper: the download loop never changes the configuration. -/
theorem download_all_parentDirectory (fl : List FileEntry) (dd token : Str)
    (w : World) :
    (download_all fl dd token w).parentDirectory = w.parentDirectory := by
  induction fl generalizing w with
  | nil => rfl
  | cons f fl ih =>
    show (download_all fl dd token
        (get_dryad_dataset_file f.selfHref (pathJoin dd f.path) token w)).parentDirectory
      = w.parentDirectory
    rw [ih, gddf_parentDirectory]

/-- Helper: the download loop never changes the archiver flag. -/
theorem download_all_zipOk (fl : List FileEntry) (dd token : Str) (w : World) :
    (download_all fl dd token w).zipOk = w.zipOk := by
  induction fl generalizing w with
  | nil => rfl
  | cons f fl ih =>
    show (download_all fl dd token
        (get_dryad_dataset_file f.selfHref (pathJoin dd f.path) token w)).zipOk
      = w.zipOk
    rw [ih, gddf_zipOk]

/-- Helper: the download loop issues exactly one download request per
listed file, in listing order, regardless of the per-file outcomes. -/
theorem download_all_log (fl : List FileEntry) (dd token : Str) (w : World) :
    (download_all fl dd token w).log
      = w.log ++ fl.map (fun f =>
          .download (lit "https://datadryad.org" ++ f.selfHref ++ lit "/download")) := by
  induction fl generalizing w with
  | nil => simp [download_all]
  | cons f fl ih =>
    show (download_all fl dd token
        (get_dryad_dataset_file f.selfHref (pathJoin dd f.path) token w)).log = _
    rw [ih, gddf_log]
    simp

/-- Helper: when one identifier's processing returns normally, the main
loop goes on with the remaining identifiers in the resulting world. -/
theorem main_loop_cons_ok (token doi : Str) (rest : List Str) (w : World)
    (h : (get_dryad_dataset doi token w).1 = .ok ()) :
    main_loop token (doi :: rest) w
      = main_loop token rest (get_dryad_dataset doi token w).2 := by
  rw [main_loop]
  rcases hg : get_dryad_dataset doi token w with ⟨e, w'⟩
  rw [hg] at h
  simp only at h
  subst h
  rfl

/-- Helper: full evaluation of `get_dryad_dataset` when version resolution
succeeds, the files listing returns 200, and the parent directory is
configured: the requests are logged, the working directory `{doi}_data`
and final directory `{doi}` are created, every listed file is attempted,
and control reaches `zip_folder`. -/
theorem gdd_eval (doi token : Str) (w : World) (resp : VersionsResp)
    (v : VersionEntry) (fresp : FilesResp)
    (hresp : w.remote.versionsAt (encode_dryad_doi_url doi (lit "/versions"))
      = .ok resp)
    (h200 : resp.status = 200)
    (hcount : resp.count = (resp.versions.length : Int))
    (hlast : resp.versions.getLast? = some v)
    (hhref : v.selfHref ≠ [])
    (hfiles : w.remote.filesAt
        (lit "https://datadryad.org" ++ v.selfHref ++ lit "/files") = .ok fresp)
    (hf200 : fresp.status = 200)
    (hparent : w.parentDirectory ≠ []) :
    get_dryad_dataset doi token w
      = zip_folder (w.parentDirectory ++ doi ++ lit "_" ++ lit "data")
          (some (w.parentDirectory ++ doi))
          ((download_all fresp.files
              (w.parentDirectory ++ doi ++ lit "_" ++ lit "data") token
              (((w.logReq
                    (.getVersions (encode_dryad_doi_url doi (lit "/versions")))).logReq
                  (.getFiles (lit "https://datadryad.org" ++ v.selfHref
                    ++ lit "/files"))).addDir
                (w.parentDirectory ++ doi ++ lit "_" ++ lit "data"))).addDir
            (w.parentDirectory ++ doi)) := by
  have hdata : lit "data" ≠ [] := by decide
  simp only [get_dryad_dataset, gddv_eval doi token w resp hresp h200 hcount, hlast,
    hhref, ite_false, eq_self_iff_true, ite_true, pyStrOpt, logReq_remote, hfiles,
    hf200, create_new_dir, logReq_parentDirectory, addDir_parentDirectory, hparent,
    hdata, download_all_parentDirectory]

/-!  Claim C4: archive failure and the working directory. -/

/-- Claim C4 (amended): when opening/writing the archive fails, the
working directory `{doi}_data` is *not* deleted (deletion happens only
after the archive is fully written) — but the resulting `OSError`
propagates uncaught out of `get_dryad_dataset`, so it aborts the whole
run, not just that identifier's processing. -/
theorem archive_failure_preserves_workdir (doi token : Str) (rest : List Str)
    (w : World) (resp : VersionsResp) (v : VersionEntry) (fresp : FilesResp)
    (hresp : w.remote.versionsAt (encode_dryad_doi_url doi (lit "/versions"))
      = .ok resp)
    (h200 : resp.status = 200)
    (hcount : resp.count = (resp.versions.length : Int))
    (hlast : resp.versions.getLast? = some v)
    (hhref : v.selfHref ≠ [])
    (hfiles : w.remote.filesAt
        (lit "https://datadryad.org" ++ v.selfHref ++ lit "/files") = .ok fresp)
    (hf200 : fresp.status = 200)
    (hparent : w.parentDirectory ≠ [])
    (hzip : w.zipOk = false) :
    (get_dryad_dataset doi token w).1 = .error .osError ∧
    (w.parentDirectory ++ doi ++ lit "_" ++ lit "data")
      ∈ (get_dryad_dataset doi token w).2.dirs ∧
    main_loop token (doi :: rest) w
      = (.error .osError, (get_dryad_dataset doi token w).2) := by
  have heval := gdd_eval doi token w resp v fresp hresp h200 hcount hlast hhref
    hfiles hf200 hparent
  refine ⟨?_, ?_, ?_⟩
  · rw [heval, zip_folder]
    simp [hzip, download_all_zipOk]
  · rw [heval, zip_folder]
    simp [hzip, download_all_zipOk, download_all_dirs]
  · rw [main_loop, heval, zip_folder]
    simp [hzip, download_all_zipOk]

/-- Claim C4 (counterexample): with the archiver failing, processing the
identifier list `["aaa", "bbb"]` does not merely abort `"aaa"`: the
`OSError` escapes and the run stops — `"bbb"` is never attempted (no
request for it is ever issued). -/
theorem archive_failure_aborts_run :
    (main_loop (lit "tok") [lit "aaa", lit "bbb"]
        (mkWorld (.ok ⟨200, 1, [⟨lit "/v1"⟩]⟩)
          (.ok ⟨200, [⟨lit "/f1", lit "a.csv"⟩]⟩)
          (.ok ⟨200, 1, [[7]]⟩) (lit "/data/") false)).1 = .error .osError ∧
    Request.getVersions (encode_dryad_doi_url (lit "bbb") (lit "/versions"))
      ∉ (main_loop (lit "tok") [lit "aaa", lit "bbb"]
          (mkWorld (.ok ⟨200, 1, [⟨lit "/v1"⟩]⟩)
            (.ok ⟨200, [⟨lit "/f1", lit "a.csv"⟩]⟩)
            (.ok ⟨200, 1, [[7]]⟩) (lit "/data/") false)).2.log := by
  constructor
  · rfl
  · decide

/-- Claim C4 (witness): the amended claim on a concrete world whose
archiver fails: the working directory survives and the loop stops. -/
theorem archive_failure_preserves_workdir_witness :
    ((mkWorld (.ok ⟨200, 1, [⟨lit "/v1"⟩]⟩)
        (.ok ⟨200, [⟨lit "/f1", lit "a.csv"⟩]⟩)
        (.ok ⟨200, 1, [[7]]⟩) (lit "/data/") false).zipOk = false) ∧
    ((get_dryad_dataset (lit "w4a") (lit "tok")
        (mkWorld (.ok ⟨200, 1, [⟨lit "/v1"⟩]⟩)
          (.ok ⟨200, [⟨lit "/f1", lit "a.csv"⟩]⟩)
          (.ok ⟨200, 1, [[7]]⟩) (lit "/data/") false)).1 = .error .osError ∧
      (lit "/data/" ++ lit "w4a" ++ lit "_" ++ lit "data")
        ∈ (get_dryad_dataset (lit "w4a") (lit "tok")
            (mkWorld (.ok ⟨200, 1, [⟨lit "/v1"⟩]⟩)
              (.ok ⟨200, [⟨lit "/f1", lit "a.csv"⟩]⟩)
              (.ok ⟨200, 1, [[7]]⟩) (lit "/data/") false)).2.dirs ∧
      main_loop (lit "tok") [lit "w4a", lit "w4b"]
          (mkWorld (.ok ⟨200, 1, [⟨lit "/v1"⟩]⟩)
            (.ok ⟨200, [⟨lit "/f1", lit "a.csv"⟩]⟩)
            (.ok ⟨200, 1, [[7]]⟩) (lit "/data/") false)
        = (.error .osError,
           (get_dryad_dataset (lit "w4a") (lit "tok")
              (mkWorld (.ok ⟨200, 1, [⟨lit "/v1"⟩]⟩)
                (.ok ⟨200, [⟨lit "/f1", lit "a.csv"⟩]⟩)
                (.ok ⟨200, 1, [[7]]⟩) (lit "/data/") false)).2)) :=
  ⟨rfl,
   archive_failure_preserves_workdir (lit "w4a") (lit "tok") [lit "w4b"]
     (mkWorld (.ok ⟨200, 1, [⟨lit "/v1"⟩]⟩)
       (.ok ⟨200, [⟨lit "/f1", lit "a.csv"⟩]⟩)
       (.ok ⟨200, 1, [[7]]⟩) (lit "/data/") false)
     ⟨200, 1, [⟨lit "/v1"⟩]⟩ ⟨lit "/v1"⟩ ⟨200, [⟨lit "/f1", lit "a.csv"⟩]⟩
     rfl rfl (by norm_num) rfl (by decide) rfl rfl (by decide) rfl⟩

/-!  Filesystem lemmas (proof plumbing for the archiver). -/

/-- Helper: filtering with a predicate that keeps every entry with key `q`
does not change a key-`q` lookup. -/
theorem find?_filter_key (l : List (Str × FileData)) (q : Str)
    (f : Str × FileData → Bool) (hf : ∀ e : Str × FileData, e.1 = q → f e = true) :
    (l.filter f).find? (fun e => e.1 = q) = l.find? (fun e => e.1 = q) := by
  induction l with
  | nil => rfl
  | cons a t ih =>
    rw [List.filter_cons]
    by_cases ha : a.1 = q
    · rw [if_pos (hf a ha), List.find?_cons_of_pos _ (by simp [ha]),
        List.find?_cons_of_pos _ (by simp [ha])]
    · by_cases hfa : f a = true
      · rw [if_pos hfa, List.find?_cons_of_neg _ (by simp [ha]),
          List.find?_cons_of_neg _ (by simp [ha])]
        exact ih
      · rw [if_neg hfa, List.find?_cons_of_neg _ (by simp [ha])]
        exact ih

/-- Helper: a file just written is found at its path. -/
theorem fsGet_setFile_self (w : World) (p : Str) (d : FileData) :
    fsGet (w.setFile p d) p = some d := by
  rw [fsGet,
    show (w.setFile p d).files
      = w.files.filter (fun e => e.1 ≠ p) ++ [(p, d)] from rfl]
  have key : ∀ l : List (Str × FileData),
      (l.filter (fun e => e.1 ≠ p) ++ [(p, d)]).find? (fun e => e.1 = p)
        = some (p, d) := by
    intro l
    induction l with
    | nil =>
      rw [List.filter_nil, List.nil_append, List.find?_cons_of_pos _ (by simp)]
    | cons a t ih =>
      rw [List.filter_cons]
      by_cases ha : a.1 = p
      · rw [if_neg (by simp [ha])]
        exact ih
      · rw [if_pos (by simp [ha]), List.cons_append,
          List.find?_cons_of_neg _ (by simp [ha])]
        exact ih
  rw [key]
  rfl

/-- Helper: a shared prefix cancels in `isPrefixOf`. -/
theorem isPrefixOf_append_cancel (x u v : Str) :
    (x ++ u).isPrefixOf (x ++ v) = u.isPrefixOf v := by
  induction x with
  | nil => rfl
  | cons a t ih => simp [List.isPrefixOf, ih]

/-- Helper: deleting a tree does not affect a path outside it. -/
theorem fsGet_removeTree (w : World) (p q : Str)
    (h : (p ++ lit "/").isPrefixOf q = false) :
    fsGet (w.removeTree p) q = fsGet w q := by
  rw [fsGet, fsGet,
    show (w.removeTree p).files
      = w.files.filter (fun e => ¬(p ++ lit "/").isPrefixOf e.1) from rfl,
    find?_filter_key]
  intro e he
  simp [he, h]

/-- Helper: the working directory `{x}_data/` is not a path prefix of the
archive file `{x}/dataset.zip` (they diverge at `_` versus `/`). -/
theorem workdir_outside_zip_path (x : Str) :
    ((x ++ lit "_" ++ lit "data") ++ lit "/").isPrefixOf
      (x ++ lit "/" ++ lit "dataset.zip") = false := by
  have h1 : (x ++ lit "_" ++ lit "data") ++ lit "/"
      = x ++ (lit "_" ++ (lit "data" ++ lit "/")) := by
    simp [List.append_assoc]
  have h2 : x ++ lit "/" ++ lit "dataset.zip"
      = x ++ (lit "/" ++ lit "dataset.zip") := by
    simp [List.append_assoc]
  rw [h1, h2, isPrefixOf_append_cancel]
  decide

/-!  Claim C6: per-file failure isolation. -/

/-- Claim C6: once the files listing succeeds, every file in the listing
gets its download attempted, in listing order, regardless of the per-file
outcomes (each per-file failure is caught inside `get_dryad_dataset_file`);
afterwards the archiver still runs and the archive file exists at
`{parent}{doi}/dataset.zip`. -/
theorem per_file_isolation (doi token : Str) (w : World) (resp : VersionsResp)
    (v : VersionEntry) (fresp : FilesResp)
    (hresp : w.remote.versionsAt (encode_dryad_doi_url doi (lit "/versions"))
      = .ok resp)
    (h200 : resp.status = 200)
    (hcount : resp.count = (resp.versions.length : Int))
    (hlast : resp.versions.getLast? = some v)
    (hhref : v.selfHref ≠ [])
    (hfiles : w.remote.filesAt
        (lit "https://datadryad.org" ++ v.selfHref ++ lit "/files") = .ok fresp)
    (hf200 : fresp.status = 200)
    (hparent : w.parentDirectory ≠ [])
    (hzip : w.zipOk = true) :
    (get_dryad_dataset doi token w).2.log
      = w.log
        ++ [.getVersions (encode_dryad_doi_url doi (lit "/versions")),
            .getFiles (lit "https://datadryad.org" ++ v.selfHref ++ lit "/files")]
        ++ fresp.files.map (fun f =>
            .download (lit "https://datadryad.org" ++ f.selfHref ++ lit "/download")) ∧
    fsGet (get_dryad_dataset doi token w).2
        (pathJoin (w.parentDirectory ++ doi) (lit "dataset.zip"))
      ≠ none := by
  have heval := gdd_eval doi token w resp v fresp hresp h200 hcount hlast hhref
    hfiles hf200 hparent
  constructor
  · rw [heval, zip_folder]
    simp [hzip, download_all_zipOk, download_all_log, pathJoin]
  · rw [heval, zip_folder]
    simp only [hzip, download_all_zipOk, addDir_zipOk, logReq_zipOk, ite_true,
      pathJoin]
    rw [fsGet_removeTree _ _ _ (workdir_outside_zip_path (w.parentDirectory ++ doi)),
      fsGet_setFile_self]
    simp

/-- Claim C6 (witness): a three-file listing where every download fails
(transport error): all three downloads are attempted in order and the
archive is still created. -/
theorem per_file_isolation_witness :
    ((mkWorld (.ok ⟨200, 1, [⟨lit "/v6"⟩]⟩)
        (.ok ⟨200, [⟨lit "/f1", lit "a.csv"⟩, ⟨lit "/f2", lit "b.csv"⟩,
          ⟨lit "/f3", lit "c.csv"⟩]⟩)
        (.error ()) (lit "/data/") true).zipOk = true) ∧
    ((get_dryad_dataset (lit "c6") (lit "tok")
        (mkWorld (.ok ⟨200, 1, [⟨lit "/v6"⟩]⟩)
          (.ok ⟨200, [⟨lit "/f1", lit "a.csv"⟩, ⟨lit "/f2", lit "b.csv"⟩,
            ⟨lit "/f3", lit "c.csv"⟩]⟩)
          (.error ()) (lit "/data/") true)).2.log
      = (mkWorld (.ok ⟨200, 1, [⟨lit "/v6"⟩]⟩)
          (.ok ⟨200, [⟨lit "/f1", lit "a.csv"⟩, ⟨lit "/f2", lit "b.csv"⟩,
            ⟨lit "/f3", lit "c.csv"⟩]⟩)
          (.error ()) (lit "/data/") true).log
        ++ [.getVersions (encode_dryad_doi_url (lit "c6") (lit "/versions")),
            .getFiles (lit "https://datadryad.org" ++ lit "/v6" ++ lit "/files")]
        ++ ([⟨lit "/f1", lit "a.csv"⟩, ⟨lit "/f2", lit "b.csv"⟩,
             ⟨lit "/f3", lit "c.csv"⟩] : List FileEntry).map (fun f =>
            .download (lit "https://datadryad.org" ++ f.selfHref ++ lit "/download")) ∧
      fsGet (get_dryad_dataset (lit "c6") (lit "tok")
          (mkWorld (.ok ⟨200, 1, [⟨lit "/v6"⟩]⟩)
            (.ok ⟨200, [⟨lit "/f1", lit "a.csv"⟩, ⟨lit "/f2", lit "b.csv"⟩,
              ⟨lit "/f3", lit "c.csv"⟩]⟩)
            (.error ()) (lit "/data/") true)).2
        (pathJoin ((mkWorld (.ok ⟨200, 1, [⟨lit "/v6"⟩]⟩)
            (.ok ⟨200, [⟨lit "/f1", lit "a.csv"⟩, ⟨lit "/f2", lit "b.csv"⟩,
              ⟨lit "/f3", lit "c.csv"⟩]⟩)
            (.error ()) (lit "/data/") true).parentDirectory ++ lit "c6")
          (lit "dataset.zip"))
        ≠ none) :=
  ⟨rfl,
   per_file_isolation (lit "c6") (lit "tok")
     (mkWorld (.ok ⟨200, 1, [⟨lit "/v6"⟩]⟩)
       (.ok ⟨200, [⟨lit "/f1", lit "a.csv"⟩, ⟨lit "/f2", lit "b.csv"⟩,
         ⟨lit "/f3", lit "c.csv"⟩]⟩)
       (.error ()) (lit "/data/") true)
     ⟨200, 1, [⟨lit "/v6"⟩]⟩ ⟨lit "/v6"⟩
     ⟨200, [⟨lit "/f1", lit "a.csv"⟩, ⟨lit "/f2", lit "b.csv"⟩,
       ⟨lit "/f3", lit "c.csv"⟩]⟩
     rfl rfl (by norm_num) rfl (by decide) rfl rfl (by decide) rfl⟩

/-!  Claim C9: missing parent-directory configuration. -/

/-- Claim C9 (amended): when `PARENT_DIRECTORY` is missing/empty, the
identifier's processing fails without any *download* request, directory
creation or file write — but only after the version-resolution and
file-listing requests have already been issued (`create_new_dir` runs
after both network calls, not before). -/
theorem parent_missing_no_download (doi token : Str) (w : World)
    (resp : VersionsResp) (v : VersionEntry) (fresp : FilesResp)
    (hparent : w.parentDirectory = [])
    (hresp : w.remote.versionsAt (encode_dryad_doi_url doi (lit "/versions"))
      = .ok resp)
    (h200 : resp.status = 200)
    (hcount : resp.count = (resp.versions.length : Int))
    (hlast : resp.versions.getLast? = some v)
    (hhref : v.selfHref ≠ [])
    (hfiles : w.remote.filesAt
        (lit "https://datadryad.org" ++ v.selfHref ++ lit "/files") = .ok fresp)
    (hf200 : fresp.status = 200) :
    get_dryad_dataset doi token w
      = (.ok (),
         (w.logReq (.getVersions (encode_dryad_doi_url doi (lit "/versions")))).logReq
           (.getFiles (lit "https://datadryad.org" ++ v.selfHref ++ lit "/files"))) ∧
    (get_dryad_dataset doi token w).2.files = w.files ∧
    (get_dryad_dataset doi token w).2.dirs = w.dirs ∧
    (get_dryad_dataset doi token w).2.log
      = w.log
        ++ [.getVersions (encode_dryad_doi_url doi (lit "/versions")),
            .getFiles (lit "https://datadryad.org" ++ v.selfHref ++ lit "/files")] := by
  have hmain : get_dryad_dataset doi token w
      = (.ok (),
         (w.logReq (.getVersions (encode_dryad_doi_url doi (lit "/versions")))).logReq
           (.getFiles (lit "https://datadryad.org" ++ v.selfHref ++ lit "/files"))) := by
    simp only [get_dryad_dataset, gddv_eval doi token w resp hresp h200 hcount, hlast,
      hhref, ite_false, pyStrOpt, logReq_remote, hfiles, hf200, eq_self_iff_true,
      ite_true, create_new_dir, logReq_parentDirectory, hparent]
  refine ⟨hmain, ?_, ?_, ?_⟩ <;> rw [hmain] <;> simp

/-- Claim C9 (counterexample): with `PARENT_DIRECTORY` empty, processing
an identifier still issues network requests — the version-resolution and
file-listing GETs happen before the directory check, contradicting "no
network request is issued for it". -/
theorem parent_missing_still_contacts_network :
    (get_dryad_dataset (lit "d9") (lit "tok")
        (mkWorld (.ok ⟨200, 1, [⟨lit "/v9"⟩]⟩) (.ok ⟨200, []⟩) (.error ()) []
          true)).2.log ≠ [] := by
  have h1 : (get_dryad_dataset (lit "d9") (lit "tok")
      (mkWorld (.ok ⟨200, 1, [⟨lit "/v9"⟩]⟩) (.ok ⟨200, []⟩) (.error ()) []
        true)).2.log
      = [.getVersions (encode_dryad_doi_url (lit "d9") (lit "/versions")),
         .getFiles (lit "https://datadryad.org" ++ lit "/v9" ++ lit "/files")] := rfl
  rw [h1]
  simp

/-- Claim C9 (witness): the amended claim on a concrete world with an
empty parent directory: exactly the two metadata requests are issued, no
download happens, no directory or file is created. -/
theorem parent_missing_no_download_witness :
    ((mkWorld (.ok ⟨200, 1, [⟨lit "/v9"⟩]⟩) (.ok ⟨200, [⟨lit "/f9", lit "x.csv"⟩]⟩)
        (.error ()) [] true).parentDirectory = []) ∧
    ((get_dryad_dataset (lit "w9") (lit "tok")
        (mkWorld (.ok ⟨200, 1, [⟨lit "/v9"⟩]⟩)
          (.ok ⟨200, [⟨lit "/f9", lit "x.csv"⟩]⟩) (.error ()) [] true)).2.files
      = (mkWorld (.ok ⟨200, 1, [⟨lit "/v9"⟩]⟩)
          (.ok ⟨200, [⟨lit "/f9", lit "x.csv"⟩]⟩) (.error ()) [] true).files ∧
      (get_dryad_dataset (lit "w9") (lit "tok")
        (mkWorld (.ok ⟨200, 1, [⟨lit "/v9"⟩]⟩)
          (.ok ⟨200, [⟨lit "/f9", lit "x.csv"⟩]⟩) (.error ()) [] true)).2.dirs
      = (mkWorld (.ok ⟨200, 1, [⟨lit "/v9"⟩]⟩)
          (.ok ⟨200, [⟨lit "/f9", lit "x.csv"⟩]⟩) (.error ()) [] true).dirs) :=
  ⟨rfl,
   ⟨(parent_missing_no_download (lit "w9") (lit "tok")
       (mkWorld (.ok ⟨200, 1, [⟨lit "/v9"⟩]⟩)
         (.ok ⟨200, [⟨lit "/f9", lit "x.csv"⟩]⟩) (.error ()) [] true)
       ⟨200, 1, [⟨lit "/v9"⟩]⟩ ⟨lit "/v9"⟩ ⟨200, [⟨lit "/f9", lit "x.csv"⟩]⟩
       rfl rfl rfl (by norm_num) rfl (by decide) rfl rfl).2.1,
    (parent_missing_no_download (lit "w9") (lit "tok")
       (mkWorld (.ok ⟨200, 1, [⟨lit "/v9"⟩]⟩)
         (.ok ⟨200, [⟨lit "/f9", lit "x.csv"⟩]⟩) (.error ()) [] true)
       ⟨200, 1, [⟨lit "/v9"⟩]⟩ ⟨lit "/v9"⟩ ⟨200, [⟨lit "/f9", lit "x.csv"⟩]⟩
       rfl rfl rfl (by norm_num) rfl (by decide) rfl rfl).2.2.1⟩⟩

/-!  Claim C5: per-identifier failure isolation. -/

/-- Helper: a transport failure during version resolution is caught and
the function returns `None`. -/
theorem gddv_error (doi token : Str) (w : World)
    (hv : w.remote.versionsAt (encode_dryad_doi_url doi (lit "/versions"))
      = .error ()) :
    get_dryad_dataset_version doi token w
      = (.ok none,
         w.logReq (.getVersions (encode_dryad_doi_url doi (lit "/versions")))) := by
  simp only [get_dryad_dataset_version, logReq_remote, hv]

/-- Helper: a non-200 versions response falls through to an implicit
`None`. -/
theorem gddv_non200 (doi token : Str) (w : World) (resp : VersionsResp)
    (hv : w.remote.versionsAt (encode_dryad_doi_url doi (lit "/versions"))
      = .ok resp)
    (hs : resp.status ≠ 200) :
    get_dryad_dataset_version doi token w
      = (.ok none,
         w.logReq (.getVersions (encode_dryad_doi_url doi (lit "/versions")))) := by
  simp only [get_dryad_dataset_version, logReq_remote, hv, hs, ite_false]

/-- Claim C5 (amended): failures in version resolution (transport error or
non-200), file listing (transport error or non-200), and per-file
downloads (which never raise out of `get_dryad_dataset_file`) do not abort
the run — the orchestrator returns normally and continues with the next
identifier.  (An archive failure, by contrast, propagates and aborts the
whole run — see the counterexample.)  In the cases where version
resolution yields `None`, the subsequent files request, made against the
bogus URL `https://datadryad.orgNone/files`, is assumed to fail at
transport level. -/
theorem per_identifier_isolation (doi token : Str) (rest : List Str) (w : World)
    (resp : VersionsResp) (v : VersionEntry) (fresp : FilesResp) :
    (w.remote.versionsAt (encode_dryad_doi_url doi (lit "/versions")) = .error () →
      w.remote.filesAt (lit "https://datadryad.org" ++ lit "None" ++ lit "/files")
        = .error () →
      (get_dryad_dataset doi token w).1 = .ok () ∧
      main_loop token (doi :: rest) w
        = main_loop token rest (get_dryad_dataset doi token w).2) ∧
    (w.remote.versionsAt (encode_dryad_doi_url doi (lit "/versions")) = .ok resp →
      resp.status ≠ 200 →
      w.remote.filesAt (lit "https://datadryad.org" ++ lit "None" ++ lit "/files")
        = .error () →
      (get_dryad_dataset doi token w).1 = .ok () ∧
      main_loop token (doi :: rest) w
        = main_loop token rest (get_dryad_dataset doi token w).2) ∧
    (w.remote.versionsAt (encode_dryad_doi_url doi (lit "/versions")) = .ok resp →
      resp.status = 200 → resp.count = (resp.versions.length : Int) →
      resp.versions.getLast? = some v → v.selfHref ≠ [] →
      w.remote.filesAt (lit "https://datadryad.org" ++ v.selfHref ++ lit "/files")
        = .error () →
      (get_dryad_dataset doi token w).1 = .ok () ∧
      main_loop token (doi :: rest) w
        = main_loop token rest (get_dryad_dataset doi token w).2) ∧
    (w.remote.versionsAt (encode_dryad_doi_url doi (lit "/versions")) = .ok resp →
      resp.status = 200 → resp.count = (resp.versions.length : Int) →
      resp.versions.getLast? = some v → v.selfHref ≠ [] →
      w.remote.filesAt (lit "https://datadryad.org" ++ v.selfHref ++ lit "/files")
        = .ok fresp →
      fresp.status ≠ 200 →
      (get_dryad_dataset doi token w).1 = .ok () ∧
      main_loop token (doi :: rest) w
        = main_loop token rest (get_dryad_dataset doi token w).2) ∧
    (w.remote.versionsAt (encode_dryad_doi_url doi (lit "/versions")) = .ok resp →
      resp.status = 200 → resp.count = (resp.versions.length : Int) →
      resp.versions.getLast? = some v → v.selfHref ≠ [] →
      w.remote.filesAt (lit "https://datadryad.org" ++ v.selfHref ++ lit "/files")
        = .ok fresp →
      fresp.status = 200 → w.parentDirectory ≠ [] → w.zipOk = true →
      (get_dryad_dataset doi token w).1 = .ok () ∧
      main_loop token (doi :: rest) w
        = main_loop token rest (get_dryad_dataset doi token w).2) := by
  refine ⟨?_, ?_, ?_, ?_, ?_⟩
  · intro hv hf
    have h1 : (get_dryad_dataset doi token w).1 = .ok () := by
      simp only [get_dryad_dataset, gddv_error doi token w hv, pyStrOpt,
        logReq_remote, hf]
    exact ⟨h1, main_loop_cons_ok token doi rest w h1⟩
  · intro hv hs hf
    have h1 : (get_dryad_dataset doi token w).1 = .ok () := by
      simp only [get_dryad_dataset, gddv_non200 doi token w resp hv hs, pyStrOpt,
        logReq_remote, hf]
    exact ⟨h1, main_loop_cons_ok token doi rest w h1⟩
  · intro hv h200 hcount hlast hhref hf
    have h1 : (get_dryad_dataset doi token w).1 = .ok () := by
      simp only [get_dryad_dataset, gddv_eval doi token w resp hv h200 hcount,
        hlast, hhref, ite_false, pyStrOpt, logReq_remote, hf]
    exact ⟨h1, main_loop_cons_ok token doi rest w h1⟩
  · intro hv h200 hcount hlast hhref hf hfs
    have h1 : (get_dryad_dataset doi token w).1 = .ok () := by
      simp only [get_dryad_dataset, gddv_eval doi token w resp hv h200 hcount,
        hlast, hhref, ite_false, pyStrOpt, logReq_remote, hf, hfs]
    exact ⟨h1, main_loop_cons_ok token doi rest w h1⟩
  · intro hv h200 hcount hlast hhref hf hfs hparent hzip
    have h1 : (get_dryad_dataset doi token w).1 = .ok () := by
      rw [gdd_eval doi token w resp v fresp hv h200 hcount hlast hhref hf hfs
        hparent, zip_folder]
      simp [hzip, download_all_zipOk]
    exact ⟨h1, main_loop_cons_ok token doi rest w h1⟩

/-- Claim C5 (counterexample): one identifier's archive failure *does*
abort the run: processing `["ccc", "ddd"]` with a failing archiver stops
at `"ccc"` — no request for `"ddd"` is ever issued. -/
theorem zip_error_not_isolated :
    (main_loop (lit "tok") [lit "ccc", lit "ddd"]
        (mkWorld (.ok ⟨200, 1, [⟨lit "/v5"⟩]⟩)
          (.ok ⟨200, [⟨lit "/f5", lit "e.csv"⟩]⟩)
          (.ok ⟨200, 1, [[7]]⟩) (lit "/data/") false)).1 ≠ .ok () ∧
    Request.getVersions (encode_dryad_doi_url (lit "ddd") (lit "/versions"))
      ∉ (main_loop (lit "tok") [lit "ccc", lit "ddd"]
          (mkWorld (.ok ⟨200, 1, [⟨lit "/v5"⟩]⟩)
            (.ok ⟨200, [⟨lit "/f5", lit "e.csv"⟩]⟩)
            (.ok ⟨200, 1, [[7]]⟩) (lit "/data/") false)).2.log := by
  constructor
  · have h1 : (main_loop (lit "tok") [lit "ccc", lit "ddd"]
        (mkWorld (.ok ⟨200, 1, [⟨lit "/v5"⟩]⟩)
          (.ok ⟨200, [⟨lit "/f5", lit "e.csv"⟩]⟩)
          (.ok ⟨200, 1, [[7]]⟩) (lit "/data/") false)).1 = .error .osError := rfl
    rw [h1]
    simp
  · decide

/-- Claim C5 (witness): a file-listing transport failure for one
identifier is contained — processing returns normally and the loop
continues with the next identifier. -/
theorem per_identifier_isolation_witness :
    ((mkWorld (.ok ⟨200, 1, [⟨lit "/v5"⟩]⟩) (.error ()) (.error ())
        (lit "/data/") true).remote.filesAt
        (lit "https://datadryad.org" ++ lit "/v5" ++ lit "/files") = .error ()) ∧
    ((get_dryad_dataset (lit "d5a") (lit "tok")
        (mkWorld (.ok ⟨200, 1, [⟨lit "/v5"⟩]⟩) (.error ()) (.error ())
          (lit "/data/") true)).1 = .ok () ∧
      main_loop (lit "tok") [lit "d5a", lit "d5b"]
          (mkWorld (.ok ⟨200, 1, [⟨lit "/v5"⟩]⟩) (.error ()) (.error ())
            (lit "/data/") true)
        = main_loop (lit "tok") [lit "d5b"]
            (get_dryad_dataset (lit "d5a") (lit "tok")
              (mkWorld (.ok ⟨200, 1, [⟨lit "/v5"⟩]⟩) (.error ()) (.error ())
                (lit "/data/") true)).2) :=
  ⟨rfl,
   (per_identifier_isolation (lit "d5a") (lit "tok") [lit "d5b"]
      (mkWorld (.ok ⟨200, 1, [⟨lit "/v5"⟩]⟩) (.error ()) (.error ())
        (lit "/data/") true)
      ⟨200, 1, [⟨lit "/v5"⟩]⟩ ⟨lit "/v5"⟩ ⟨200, []⟩).2.2.1
     rfl rfl (by norm_num) rfl (by decide) rfl⟩
